import Mathlib

/-!
Verification of the vtuber-tracker tracking-data pipeline and protocol
adapters.  Numeric values are modelled as rationals (exact arithmetic in
place of Python floats); dictionaries as association lists; the stateful
adapters as explicit state-passing functions.  Every definition is a
direct translation of the corresponding Python source in `src/`.
-/

namespace VTracker

/-- `FaceTrackingData` from src/tracker/face_tracking.py: one frame's
measurements (seven channels plus a detection flag). -/
@[ext]
structure FaceTrackingData where
  head_yaw : ℚ := 0
  head_pitch : ℚ := 0
  head_roll : ℚ := 0
  eye_left : ℚ := 0
  eye_right : ℚ := 0
  mouth_open : ℚ := 0
  mouth_wide : ℚ := 0
  face_detected : Bool := false
  deriving DecidableEq, Repr

/-- Python `max(0.0, min(1.0, x))`. -/
def clamp01 (x : ℚ) : ℚ := max 0 (min 1 x)

/-- Python `max(-1.0, min(1.0, x))`. -/
def clampPM1 (x : ℚ) : ℚ := max (-1) (min 1 x)

/-- Python's built-in `abs` on a rational, written out so that it
evaluates: `-x` for negative `x`, else `x` (equal to `|x|`, see
`pyabs_eq_abs`). -/
def pyabs (x : ℚ) : ℚ := if x < 0 then -x else x

/-! ## ParameterMapper (src/tracker/landmarks_to_params.py) -/

/-- `LandmarksToParameters.apply_deadzone` (landmarks_to_params.py lines
54-72), with division read as total rational division (Lean's `x / 0 = 0`
convention stands in for Python's `ZeroDivisionError`; the checked variant
below records the error case exactly). -/
def apply_deadzone (value deadzone : ℚ) : ℚ :=
  if pyabs value < deadzone then 0
  else if value ≥ 0 then (value - deadzone) / (1 - deadzone)
  else (value + deadzone) / (1 - deadzone)

/-- `LandmarksToParameters.apply_deadzone` again, this time with Python's
division semantics made explicit: `none` is the `ZeroDivisionError` raised
when the divisor `1.0 - deadzone` is zero on a reached division. -/
def apply_deadzone_checked (value deadzone : ℚ) : Option ℚ :=
  if pyabs value < deadzone then some 0
  else if 1 - deadzone = 0 then none
  else if value ≥ 0 then some ((value - deadzone) / (1 - deadzone))
  else some ((value + deadzone) / (1 - deadzone))

/-- The mutable configuration of `LandmarksToParameters.__init__`:
per-channel sensitivity multipliers and deadzones. -/
structure MapperConfig where
  head_yaw_multiplier : ℚ := 1
  head_pitch_multiplier : ℚ := 1
  head_roll_multiplier : ℚ := 1
  eye_left_multiplier : ℚ := 1
  eye_right_multiplier : ℚ := 1
  mouth_open_multiplier : ℚ := 1
  mouth_wide_multiplier : ℚ := 1
  head_yaw_deadzone : ℚ := 5/100
  head_pitch_deadzone : ℚ := 5/100
  head_roll_deadzone : ℚ := 5/100
  eye_left_deadzone : ℚ := 5/100
  eye_right_deadzone : ℚ := 5/100
  mouth_open_deadzone : ℚ := 5/100
  mouth_wide_deadzone : ℚ := 5/100
  deriving DecidableEq, Repr

/-- `LandmarksToParameters.map_to_vmc_params` (lines 74-118), returned as
the association list of parameter names to values in insertion order. -/
def map_to_vmc_params (cfg : MapperConfig) (d : FaceTrackingData) :
    List (String × ℚ) :=
  let head_yaw := apply_deadzone d.head_yaw cfg.head_yaw_deadzone
  let head_pitch := apply_deadzone d.head_pitch cfg.head_pitch_deadzone
  let head_roll := apply_deadzone d.head_roll cfg.head_roll_deadzone
  let eye_left := apply_deadzone d.eye_left cfg.eye_left_deadzone
  let eye_right := apply_deadzone d.eye_right cfg.eye_right_deadzone
  let mouth_open := apply_deadzone d.mouth_open cfg.mouth_open_deadzone
  let mouth_wide := apply_deadzone d.mouth_wide cfg.mouth_wide_deadzone
  let adjusted_mouth_open := clamp01 (mouth_open * cfg.mouth_open_multiplier)
  let adjusted_mouth_wide := clamp01 (mouth_wide * cfg.mouth_wide_multiplier)
  [("head_yaw", head_yaw * cfg.head_yaw_multiplier),
   ("head_pitch", head_pitch * cfg.head_pitch_multiplier),
   ("head_roll", head_roll * cfg.head_roll_multiplier),
   ("Blink_L", clamp01 (eye_left * cfg.eye_left_multiplier)),
   ("Blink_R", clamp01 (eye_right * cfg.eye_right_multiplier)),
   ("A", min 1 (adjusted_mouth_open * (3/2))),
   ("I", min 1 (adjusted_mouth_wide * (1/2))),
   ("U", min 1 (adjusted_mouth_wide * (1/2))),
   ("E", min 1 (adjusted_mouth_wide * (3/10))),
   ("O", min 1 (adjusted_mouth_open * (8/10))),
   ("Joy", min 1 (adjusted_mouth_wide * (12/10)))]

/-- `LandmarksToParameters.map_to_vts_params` (lines 120-158). -/
def map_to_vts_params (cfg : MapperConfig) (d : FaceTrackingData) :
    List (String × ℚ) :=
  let head_yaw := apply_deadzone d.head_yaw cfg.head_yaw_deadzone
  let head_pitch := apply_deadzone d.head_pitch cfg.head_pitch_deadzone
  let head_roll := apply_deadzone d.head_roll cfg.head_roll_deadzone
  let eye_left := apply_deadzone d.eye_left cfg.eye_left_deadzone
  let eye_right := apply_deadzone d.eye_right cfg.eye_right_deadzone
  let mouth_open := apply_deadzone d.mouth_open cfg.mouth_open_deadzone
  let mouth_wide := apply_deadzone d.mouth_wide cfg.mouth_wide_deadzone
  [("ParamAngleX", head_yaw * 30 * cfg.head_yaw_multiplier),
   ("ParamAngleY", head_pitch * 30 * cfg.head_pitch_multiplier),
   ("ParamAngleZ", head_roll * 30 * cfg.head_roll_multiplier),
   ("ParamEyeLOpen", clamp01 (1 - eye_left * cfg.eye_left_multiplier)),
   ("ParamEyeROpen", clamp01 (1 - eye_right * cfg.eye_right_multiplier)),
   ("ParamMouthOpenY", clamp01 (mouth_open * cfg.mouth_open_multiplier)),
   ("ParamMouthForm", clamp01 (mouth_wide * cfg.mouth_wide_multiplier)),
   ("ParamSmile", clamp01 (mouth_wide * (3/2)))]

/-- `LandmarksToParameters.update_deadzones` (lines 223-256) restricted to
a single channel update: the new stored deadzone for a supplied value. -/
def update_deadzone_store (requested : ℚ) : ℚ := max 0 (min 1 requested)

/-! ## Smoother (src/tracker/smoothing.py, class DataSmoother) -/

/-- State of `DataSmoother`.  In the source `initialized` and `prev_data`
are two fields but are written in lockstep at every site (`__init__`:
`None`/`False`; first-frame branch: sample/`True`; `reset`:
`None`/`False`), so `initialized` is represented as `prev_data.isSome`. -/
structure SmootherState where
  alpha : ℚ := 2/10
  enabled : Bool := true
  prev_data : Option FaceTrackingData := none
  deriving DecidableEq, Repr

/-- `DataSmoother._ema` (smoothing.py lines 59-70). -/
def ema (alpha prev_value current_value : ℚ) : ℚ :=
  alpha * current_value + (1 - alpha) * prev_value

/-- The EMA of lines 43-52 applied channel-wise to a whole sample. -/
def emaSample (alpha : ℚ) (prev cur : FaceTrackingData) : FaceTrackingData :=
  { head_yaw := ema alpha prev.head_yaw cur.head_yaw
    head_pitch := ema alpha prev.head_pitch cur.head_pitch
    head_roll := ema alpha prev.head_roll cur.head_roll
    eye_left := ema alpha prev.eye_left cur.eye_left
    eye_right := ema alpha prev.eye_right cur.eye_right
    mouth_open := ema alpha prev.mouth_open cur.mouth_open
    mouth_wide := ema alpha prev.mouth_wide cur.mouth_wide
    face_detected := cur.face_detected }

/-- `DataSmoother.smooth_data` (smoothing.py lines 23-57): returns the
updated smoother state and the returned sample. -/
def smooth_data (st : SmootherState) (cur : FaceTrackingData) :
    SmootherState × FaceTrackingData :=
  if st.enabled = false ∨ cur.face_detected = false then (st, cur)
  else
    match st.prev_data with
    | none => ({ st with prev_data := some cur }, cur)
    | some p =>
        let smoothed := emaSample st.alpha p cur
        ({ st with prev_data := some smoothed }, smoothed)

/-- `DataSmoother.reset` (smoothing.py lines 72-75). -/
def smoother_reset (st : SmootherState) : SmootherState :=
  { st with prev_data := none }

/-! ## Calibrator (src/tracker/calibration.py) -/

/-- `CalibrationData` (calibration.py lines 9-22). -/
structure CalibrationData where
  head_yaw_offset : ℚ := 0
  head_pitch_offset : ℚ := 0
  head_roll_offset : ℚ := 0
  eye_left_offset : ℚ := 0
  eye_right_offset : ℚ := 0
  mouth_open_offset : ℚ := 0
  mouth_wide_offset : ℚ := 0
  is_calibrated : Bool := false
  deriving DecidableEq, Repr

/-- `FaceCalibrator` state (calibration.py lines 35-44). -/
structure FaceCalibrator where
  calibration_data : CalibrationData := {}
  calibration_samples : List FaceTrackingData := []
  is_calibrating : Bool := false
  required_samples : ℕ := 30
  current_sample_count : ℕ := 0
  deriving DecidableEq, Repr

/-- `FaceCalibrator.start_calibration` (lines 46-53). -/
def start_calibration (c : FaceCalibrator) : FaceCalibrator :=
  { c with is_calibrating := true, calibration_samples := [],
           current_sample_count := 0 }

/-- `np.mean` over a list of rationals (its use at lines 87-93). -/
def npMean (l : List ℚ) : ℚ := l.sum / (l.length : ℚ)

/-- `FaceCalibrator.finish_calibration` (lines 77-107). -/
def finish_calibration (c : FaceCalibrator) : FaceCalibrator :=
  if c.calibration_samples = [] then { c with is_calibrating := false }
  else
    { c with
      calibration_data :=
        { head_yaw_offset := npMean (c.calibration_samples.map (·.head_yaw))
          head_pitch_offset := npMean (c.calibration_samples.map (·.head_pitch))
          head_roll_offset := npMean (c.calibration_samples.map (·.head_roll))
          eye_left_offset := npMean (c.calibration_samples.map (·.eye_left))
          eye_right_offset := npMean (c.calibration_samples.map (·.eye_right))
          mouth_open_offset := npMean (c.calibration_samples.map (·.mouth_open))
          mouth_wide_offset := npMean (c.calibration_samples.map (·.mouth_wide))
          is_calibrated := true }
      calibration_samples := []
      is_calibrating := false }

/-- `FaceCalibrator.collect_sample` (lines 55-75): updated state and the
boolean return value ("finished"). -/
def collect_sample (c : FaceCalibrator) (d : FaceTrackingData) :
    FaceCalibrator × Bool :=
  if c.is_calibrating = false ∨ d.face_detected = false then (c, false)
  else
    let c' := { c with
      calibration_samples := c.calibration_samples ++ [d]
      current_sample_count := c.current_sample_count + 1 }
    if c'.current_sample_count ≥ c'.required_samples then
      (finish_calibration c', true)
    else (c', false)

/-- `FaceCalibrator.apply_calibration` (lines 118-149). -/
def apply_calibration (c : FaceCalibrator) (d : FaceTrackingData) :
    FaceTrackingData :=
  if c.calibration_data.is_calibrated = false then d
  else
    { head_yaw := clampPM1 (d.head_yaw - c.calibration_data.head_yaw_offset)
      head_pitch := clampPM1 (d.head_pitch - c.calibration_data.head_pitch_offset)
      head_roll := clampPM1 (d.head_roll - c.calibration_data.head_roll_offset)
      eye_left := clamp01 (d.eye_left - c.calibration_data.eye_left_offset)
      eye_right := clamp01 (d.eye_right - c.calibration_data.eye_right_offset)
      mouth_open := clamp01 (d.mouth_open - c.calibration_data.mouth_open_offset)
      mouth_wide := clamp01 (d.mouth_wide - c.calibration_data.mouth_wide_offset)
      face_detected := d.face_detected }

/-! ## PrecisionMode (src/tracker/precision_mode.py) -/

/-- `PrecisionMode` state (precision_mode.py lines 14-24). -/
structure PrecisionMode where
  enabled : Bool := false
  sensitivity_multiplier : ℚ := 3/2
  prev_data : Option FaceTrackingData := none
  noise_reduction_enabled : Bool := true
  noise_threshold : ℚ := 1/100
  eye_blink_precision : Bool := true
  mouth_precision : Bool := true
  head_rotation_precision : Bool := true
  deriving DecidableEq, Repr

/-- The multiplication step of `enhance_tracking_data` (lines 56-65):
each enabled channel group scaled by the sensitivity multiplier. -/
def multSample (pm : PrecisionMode) (raw : FaceTrackingData) : FaceTrackingData :=
  { head_yaw := if pm.head_rotation_precision then
      raw.head_yaw * pm.sensitivity_multiplier else raw.head_yaw
    head_pitch := if pm.head_rotation_precision then
      raw.head_pitch * pm.sensitivity_multiplier else raw.head_pitch
    head_roll := if pm.head_rotation_precision then
      raw.head_roll * pm.sensitivity_multiplier else raw.head_roll
    eye_left := if pm.eye_blink_precision then
      raw.eye_left * pm.sensitivity_multiplier else raw.eye_left
    eye_right := if pm.eye_blink_precision then
      raw.eye_right * pm.sensitivity_multiplier else raw.eye_right
    mouth_open := if pm.mouth_precision then
      raw.mouth_open * pm.sensitivity_multiplier else raw.mouth_open
    mouth_wide := if pm.mouth_precision then
      raw.mouth_wide * pm.sensitivity_multiplier else raw.mouth_wide
    face_detected := raw.face_detected }

/-- `PrecisionMode.reduce_noise` (precision_mode.py lines 87-122). -/
def reduce_noise (pm : PrecisionMode) (cur prev : FaceTrackingData) :
    FaceTrackingData :=
  if pm.noise_reduction_enabled = false then cur
  else
    { head_yaw := if pyabs (cur.head_yaw - prev.head_yaw) ≥ pm.noise_threshold
        then cur.head_yaw else prev.head_yaw
      head_pitch := if pyabs (cur.head_pitch - prev.head_pitch) ≥ pm.noise_threshold
        then cur.head_pitch else prev.head_pitch
      head_roll := if pyabs (cur.head_roll - prev.head_roll) ≥ pm.noise_threshold
        then cur.head_roll else prev.head_roll
      eye_left := if pyabs (cur.eye_left - prev.eye_left) ≥ pm.noise_threshold
        then cur.eye_left else prev.eye_left
      eye_right := if pyabs (cur.eye_right - prev.eye_right) ≥ pm.noise_threshold
        then cur.eye_right else prev.eye_right
      mouth_open := if pyabs (cur.mouth_open - prev.mouth_open) ≥ pm.noise_threshold
        then cur.mouth_open else prev.mouth_open
      mouth_wide := if pyabs (cur.mouth_wide - prev.mouth_wide) ≥ pm.noise_threshold
        then cur.mouth_wide else prev.mouth_wide
      face_detected := cur.face_detected }

/-- The final clamping step of `enhance_tracking_data` (lines 71-80). -/
def clampSample (d : FaceTrackingData) : FaceTrackingData :=
  { head_yaw := clampPM1 d.head_yaw
    head_pitch := clampPM1 d.head_pitch
    head_roll := clampPM1 d.head_roll
    eye_left := clamp01 d.eye_left
    eye_right := clamp01 d.eye_right
    mouth_open := clamp01 d.mouth_open
    mouth_wide := clamp01 d.mouth_wide
    face_detected := d.face_detected }

/-- `PrecisionMode.enhance_tracking_data` (precision_mode.py lines 42-85):
updated state and the returned enhanced sample. -/
def enhance_tracking_data (pm : PrecisionMode) (raw : FaceTrackingData) :
    PrecisionMode × FaceTrackingData :=
  if pm.enabled = false then (pm, raw)
  else
    let enhanced := multSample pm raw
    let denoised :=
      match pm.prev_data with
      | some prev =>
          if pm.noise_reduction_enabled = true then reduce_noise pm enhanced prev
          else enhanced
      | none => enhanced
    let final := clampSample denoised
    ({ pm with prev_data := some final }, final)

/-! ## OSC/VMC adapter (src/sender/vmc_sender.py, class VMCSender)

The tracking-parameter dictionary is an association list; `dict.get` with
default is `lookup` + `getD`.  `euler_to_quaternion` builds on `math.cos` /
`math.sin`, so the quaternion conversion is kept abstract: the frame
construction is parametrised by a function `quatFn pitch yaw roll`
returning the `[w, x, y, z]` tuple, exactly as `send_tracking_data` calls
`euler_to_quaternion(head_pitch, head_yaw, head_roll)`. -/

/-- Quaternion components as returned by `euler_to_quaternion`. -/
structure Quat where
  w : ℚ
  x : ℚ
  y : ℚ
  z : ℚ
  deriving DecidableEq, Repr

/-- One outbound OSC message of `VMCSender.send_tracking_data`. -/
inductive OscMsg where
  | rootRot (w x y z : ℚ)
  | blendVal (name : String) (value : ℚ) (flag : ℤ)
  deriving DecidableEq, Repr

/-- `tracking_params.get (key, 0.0)`. -/
def getD0 (params : List (String × ℚ)) (k : String) : ℚ :=
  (params.lookup k).getD 0

/-- The full frame of messages `VMCSender.send_tracking_data` attempts to
send, in order (vmc_sender.py lines 60-95): the rotation message when all
three head keys are present (with `w` hardcoded to `1.0` as at line 73),
the eight fixed blend-shape messages, and the two optional smile
messages. -/
def vmc_planned_messages (quatFn : ℚ → ℚ → ℚ → Quat)
    (params : List (String × ℚ)) : List OscMsg :=
  let rot :=
    match params.lookup "head_yaw", params.lookup "head_pitch",
          params.lookup "head_roll" with
    | some yaw, some pitch, some roll =>
        let q := quatFn pitch yaw roll
        [OscMsg.rootRot 1 q.x q.y q.z]
    | _, _, _ => []
  let blends :=
    ["Blink_L", "Blink_R", "A", "I", "U", "E", "O", "Joy"].map
      (fun n => OscMsg.blendVal n (getD0 params n) 1)
  let smileL :=
    if (params.lookup "MouthSmileL").isSome then
      [OscMsg.blendVal "MouthSmileL" (getD0 params "MouthSmileL") 1]
    else []
  let smileR :=
    if (params.lookup "MouthSmileR").isSome then
      [OscMsg.blendVal "MouthSmileR" (getD0 params "MouthSmileR") 1]
    else []
  rot ++ blends ++ smileL ++ smileR

/-- Socket fault model: `fails i = true` means the `i`-th `send_message`
call of the frame raises.  The whole body of `send_tracking_data` sits in
a single `try`/`except` (lines 60-98), so delivery proceeds message by
message until the first failing call; the exception is then caught and
logged (`errored = true`) and the rest of the frame is skipped. -/
def send_until_error (fails : ℕ → Bool) : ℕ → List OscMsg → List OscMsg × Bool
  | _, [] => ([], false)
  | i, m :: rest =>
      if fails i then ([], true)
      else
        let r := send_until_error fails (i + 1) rest
        (m :: r.1, r.2)

/-- `VMCSender.send_tracking_data` (vmc_sender.py lines 50-98): the list
of messages actually delivered and whether a send error was caught. -/
def vmc_send_tracking_data (quatFn : ℚ → ℚ → ℚ → Quat)
    (enabled is_connected client_some : Bool) (fails : ℕ → Bool)
    (params : List (String × ℚ)) : List OscMsg × Bool :=
  if enabled = false ∨ is_connected = false ∨ client_some = false then
    ([], false)
  else send_until_error fails 0 (vmc_planned_messages quatFn params)

/-! ## Session/WebSocket adapter (src/sender/vts_sender.py, class VTSSender)

The mutable per-instance state, the inbound message shapes handled by
`on_message`, and the outbound request shapes.  Callback invocations and
method calls are modelled as events driving a step function that returns
the updated state together with the outbound messages written to the
socket during that event. -/

/-- The session-relevant fields of `VTSSender.__init__` (vts_sender.py
lines 24-37).  `ws_some` is `self.ws is not None`. -/
structure VTSState where
  enabled : Bool := true
  ws_some : Bool := false
  is_connected : Bool := false
  auth_token : Option String := none
  session_id : Option String := none
  param_cache : List (String × ℚ) := []
  deriving DecidableEq, Repr

/-- Inbound messages distinguished by `on_message` (lines 87-112).
`malformed` covers invalid JSON and unknown message types, which are
logged and ignored. -/
inductive VTSInMsg where
  | apiError (errorIDMessage : String)
  | authenticationToken (tok : Option String)
  | authenticationResponse (authenticated : Bool) (sessionID : Option String)
  | currentModelParameters
  | malformed (raw : String)
  deriving DecidableEq, Repr

/-- Outbound requests written with `self.ws.send`. -/
inductive VTSOutMsg where
  | authenticationRequest (token : Option String)
  | parameterUpdateRequest (parameterValues : List (String × ℚ))
  | hotkeyTriggerRequest (hotkeyID : String)
  | getCurrentModelParametersRequest
  deriving DecidableEq, Repr

/-- Python dict lookup `cache.get(k)` on an insertion-ordered
association list. -/
def dict_get : List (String × ℚ) → String → Option ℚ
  | [], _ => none
  | (k1, v1) :: rest, k => if k = k1 then some v1 else dict_get rest k

/-- Python dict assignment `cache[k] = v` on an insertion-ordered
association list: replace in place if the key exists, else append. -/
def dict_set (c : List (String × ℚ)) (k : String) (v : ℚ) :
    List (String × ℚ) :=
  if (dict_get c k).isSome then
    c.map (fun p => if p.1 = k then (k, v) else p)
  else c ++ [(k, v)]

/-- The change-detection test of lines 184-187: a parameter is included
when its name is absent from the cache or its absolute delta from the
cached value is at least `0.01`. -/
def vts_passes (cache : List (String × ℚ)) (name : String) (v : ℚ) : Bool :=
  match dict_get cache name with
  | some old => if pyabs (old - v) < 1/100 then false else true
  | none => true

/-- The parameter loop of `send_tracking_data` (lines 181-194): walks the
parameter list, accumulating the `param_updates` batch and threading the
cache. -/
def vts_param_loop : List (String × ℚ) → List (String × ℚ) →
    List (String × ℚ) → List (String × ℚ) × List (String × ℚ)
  | [], cache, acc => (acc, cache)
  | (name, v) :: rest, cache, acc =>
      if vts_passes cache name v then
        vts_param_loop rest (dict_set cache name v) (acc ++ [(name, v)])
      else vts_param_loop rest cache acc

/-- `VTSSender.send_tracking_data` (vts_sender.py lines 169-214):
updated state and the outbound messages of this call. -/
def vts_send_tracking_data (st : VTSState) (params : List (String × ℚ)) :
    VTSState × List VTSOutMsg :=
  if st.enabled = false ∨ st.is_connected = false ∨ st.ws_some = false then
    (st, [])
  else
    let r := vts_param_loop params st.param_cache []
    ({ st with param_cache := r.2 },
     if r.1 = [] then [] else [VTSOutMsg.parameterUpdateRequest r.1])

/-- `VTSSender.disconnect` (vts_sender.py lines 252-259): closes the
socket if present, drops the connected flag and the auth token.  Neither
`self.ws` nor `self.param_cache` is reset. -/
def vts_disconnect (st : VTSState) : VTSState :=
  { st with is_connected := false, auth_token := none }

/-- Events driving the adapter: the WebSocket callbacks and the public
method calls relevant to the session. -/
inductive VTSEvent where
  | wsCreated
  | onOpen
  | onMessage (m : VTSInMsg)
  | onError
  | onClose
  | authenticate
  | disconnectCall
  | sendTrackingData (params : List (String × ℚ))
  deriving DecidableEq, Repr

/-- One event step of the adapter.  Each arm is translated from the
corresponding handler or method in vts_sender.py: `on_open` (82-85),
`on_message` (87-112) — a token message stores the token and triggers
`authenticate_with_token` (147-167), a successful authentication response
stores the session id, everything else only logs —, `on_error` (114-118),
`on_close` (120-124), `authenticate` (126-145), `disconnect` (252-259)
and `send_tracking_data` (169-214). -/
def vts_step (st : VTSState) : VTSEvent → VTSState × List VTSOutMsg
  | VTSEvent.wsCreated => ({ st with ws_some := true }, [])
  | VTSEvent.onOpen => ({ st with is_connected := true }, [])
  | VTSEvent.onMessage (VTSInMsg.authenticationToken tok) =>
      let st' := { st with auth_token := tok }
      match tok with
      | some t => (st', [VTSOutMsg.authenticationRequest (some t)])
      | none => (st', [])
  | VTSEvent.onMessage (VTSInMsg.authenticationResponse ok sid) =>
      (if ok then { st with session_id := sid } else st, [])
  | VTSEvent.onMessage (VTSInMsg.apiError _) => (st, [])
  | VTSEvent.onMessage VTSInMsg.currentModelParameters => (st, [])
  | VTSEvent.onMessage (VTSInMsg.malformed _) => (st, [])
  | VTSEvent.onError =>
      ({ st with is_connected := false, auth_token := none }, [])
  | VTSEvent.onClose =>
      ({ st with is_connected := false, auth_token := none }, [])
  | VTSEvent.authenticate =>
      if st.is_connected = false then (st, [])
      else (st, [VTSOutMsg.authenticationRequest none])
  | VTSEvent.disconnectCall => (vts_disconnect st, [])
  | VTSEvent.sendTrackingData params => vts_send_tracking_data st params

/-- Run a trace of events from a state, concatenating outputs. -/
def vts_run (st : VTSState) : List VTSEvent → VTSState × List VTSOutMsg
  | [] => (st, [])
  | e :: rest =>
      let r := vts_step st e
      let r' := vts_run r.1 rest
      (r'.1, r.2 ++ r'.2)

/-- Whether an event is the receipt of an explicit successful
authentication acknowledgment (`AuthenticationResponse` with
`authenticated = true`). -/
def isAuthAck : VTSEvent → Bool
  | VTSEvent.onMessage (VTSInMsg.authenticationResponse ok _) => ok
  | _ => false

/-- Whether an outbound message is a `ParameterUpdateRequest`. -/
def isParamUpdate : VTSOutMsg → Bool
  | VTSOutMsg.parameterUpdateRequest _ => true
  | _ => false

/-- The closed form of `n` EMA steps on the constant input `s` starting
from previous value `p`: channel-wise `s + (1 - alpha)^n * (p - s)`. -/
def mixSample (alpha : ℚ) (p s : FaceTrackingData) (n : ℕ) :
    FaceTrackingData :=
  { head_yaw := s.head_yaw + (1 - alpha) ^ n * (p.head_yaw - s.head_yaw)
    head_pitch :=
      s.head_pitch + (1 - alpha) ^ n * (p.head_pitch - s.head_pitch)
    head_roll := s.head_roll + (1 - alpha) ^ n * (p.head_roll - s.head_roll)
    eye_left := s.eye_left + (1 - alpha) ^ n * (p.eye_left - s.eye_left)
    eye_right := s.eye_right + (1 - alpha) ^ n * (p.eye_right - s.eye_right)
    mouth_open :=
      s.mouth_open + (1 - alpha) ^ n * (p.mouth_open - s.mouth_open)
    mouth_wide :=
      s.mouth_wide + (1 - alpha) ^ n * (p.mouth_wide - s.mouth_wide)
    face_detected := true }

/-- The sign function of the spec's deadzone formula
`sign(value) * (|value| - deadzone) / (1 - deadzone)`; kept separate from
the source translation so the two can be compared. -/
def qsign (x : ℚ) : ℚ := if 0 < x then 1 else if x < 0 then -1 else 0

end VTracker

namespace VTracker

/-! ## Theorems -/

/-- The executable `pyabs` agrees with the absolute value. -/
lemma pyabs_eq_abs (x : ℚ) : pyabs x = |x| := by
  unfold pyabs
  by_cases h : x < 0
  · simp [h, abs_of_neg h]
  · simp [h, abs_of_nonneg (not_lt.mp h)]

/-- `clamp01` is the identity on [0, 1]. -/
lemma clamp01_eq_self {x : ℚ} (h0 : 0 ≤ x) (h1 : x ≤ 1) : clamp01 x = x := by
  simp [clamp01, min_eq_right h1, max_eq_right h0]

/-- `clampPM1` is the identity on [-1, 1]. -/
lemma clampPM1_eq_self {x : ℚ} (h0 : -1 ≤ x) (h1 : x ≤ 1) :
    clampPM1 x = x := by
  simp [clampPM1, min_eq_right h1, max_eq_right h0]

/-- C4: for every value and every deadzone in [0, 1),
`ParameterMapper.apply_deadzone` returns 0 when `|value| < deadzone` and
otherwise `sign(value) * (|value| - deadzone) / (1 - deadzone)`; and in
both projection functions (`map_to_vmc_params`, `map_to_vts_params`) the
deadzone transformation is applied to each channel before that channel's
sensitivity multiplier. -/
theorem C4_deadzone_before_multiplier (v dz : ℚ) (h0 : 0 ≤ dz) (h1 : dz < 1) :
    (|v| < dz → apply_deadzone v dz = 0) ∧
    (dz ≤ |v| → apply_deadzone v dz = qsign v * (|v| - dz) / (1 - dz)) ∧
    (∀ (cfg : MapperConfig) (d : FaceTrackingData),
      ((map_to_vmc_params cfg d).lookup "head_yaw" =
        some (apply_deadzone d.head_yaw cfg.head_yaw_deadzone *
          cfg.head_yaw_multiplier)) ∧
      ((map_to_vmc_params cfg d).lookup "head_pitch" =
        some (apply_deadzone d.head_pitch cfg.head_pitch_deadzone *
          cfg.head_pitch_multiplier)) ∧
      ((map_to_vmc_params cfg d).lookup "head_roll" =
        some (apply_deadzone d.head_roll cfg.head_roll_deadzone *
          cfg.head_roll_multiplier)) ∧
      ((map_to_vmc_params cfg d).lookup "Blink_L" =
        some (clamp01 (apply_deadzone d.eye_left cfg.eye_left_deadzone *
          cfg.eye_left_multiplier))) ∧
      ((map_to_vmc_params cfg d).lookup "Blink_R" =
        some (clamp01 (apply_deadzone d.eye_right cfg.eye_right_deadzone *
          cfg.eye_right_multiplier))) ∧
      ((map_to_vmc_params cfg d).lookup "A" =
        some (min 1 (clamp01 (apply_deadzone d.mouth_open
          cfg.mouth_open_deadzone * cfg.mouth_open_multiplier) * (3/2)))) ∧
      ((map_to_vmc_params cfg d).lookup "I" =
        some (min 1 (clamp01 (apply_deadzone d.mouth_wide
          cfg.mouth_wide_deadzone * cfg.mouth_wide_multiplier) * (1/2)))) ∧
      ((map_to_vts_params cfg d).lookup "ParamAngleX" =
        some (apply_deadzone d.head_yaw cfg.head_yaw_deadzone * 30 *
          cfg.head_yaw_multiplier)) ∧
      ((map_to_vts_params cfg d).lookup "ParamAngleY" =
        some (apply_deadzone d.head_pitch cfg.head_pitch_deadzone * 30 *
          cfg.head_pitch_multiplier)) ∧
      ((map_to_vts_params cfg d).lookup "ParamAngleZ" =
        some (apply_deadzone d.head_roll cfg.head_roll_deadzone * 30 *
          cfg.head_roll_multiplier)) ∧
      ((map_to_vts_params cfg d).lookup "ParamEyeLOpen" =
        some (clamp01 (1 - apply_deadzone d.eye_left cfg.eye_left_deadzone *
          cfg.eye_left_multiplier))) ∧
      ((map_to_vts_params cfg d).lookup "ParamEyeROpen" =
        some (clamp01 (1 - apply_deadzone d.eye_right cfg.eye_right_deadzone *
          cfg.eye_right_multiplier))) ∧
      ((map_to_vts_params cfg d).lookup "ParamMouthOpenY" =
        some (clamp01 (apply_deadzone d.mouth_open cfg.mouth_open_deadzone *
          cfg.mouth_open_multiplier))) ∧
      ((map_to_vts_params cfg d).lookup "ParamMouthForm" =
        some (clamp01 (apply_deadzone d.mouth_wide cfg.mouth_wide_deadzone *
          cfg.mouth_wide_multiplier)))) := by
  refine ⟨?_, ?_, ?_⟩
  · intro hlt
    simp [apply_deadzone, pyabs_eq_abs, hlt]
  · intro hge
    have hne : (1 : ℚ) - dz ≠ 0 := by linarith
    rcases lt_trichotomy v 0 with hv | hv | hv
    · have habs : |v| = -v := abs_of_neg hv
      have hnlt : ¬ |v| < dz := not_lt.mpr hge
      simp only [apply_deadzone, pyabs_eq_abs, hnlt, if_false]
      rw [if_neg (by linarith), qsign, if_neg (by linarith), if_pos hv]
      rw [habs]
      field_simp
      ring
    · subst hv
      have hdz0 : dz = 0 := le_antisymm (by simpa using hge) h0
      subst hdz0
      simp [apply_deadzone, pyabs_eq_abs, qsign]
    · have habs : |v| = v := abs_of_pos hv
      have hnlt : ¬ |v| < dz := not_lt.mpr hge
      simp only [apply_deadzone, pyabs_eq_abs, hnlt, if_false]
      rw [if_pos (le_of_lt hv), qsign, if_pos hv, habs, one_mul]
  · intro cfg d
    refine ⟨rfl, rfl, rfl, rfl, rfl, rfl, rfl, rfl, rfl, rfl, rfl, rfl, rfl, rfl⟩

/-- Witness for C4 at `v = -1/2`, `dz = 1/10`. -/
theorem C4_deadzone_before_multiplier_witness :
    (0 : ℚ) ≤ 1/10 ∧ (1/10 : ℚ) < 1 ∧ (1/10 : ℚ) ≤ |(-1/2 : ℚ)| ∧
    apply_deadzone (-1/2) (1/10) =
      qsign (-1/2) * (|(-1/2 : ℚ)| - 1/10) / (1 - 1/10) :=
  ⟨by norm_num, by norm_num, by norm_num [abs_of_neg],
    (C4_deadzone_before_multiplier (-1/2) (1/10) (by norm_num)
      (by norm_num)).2.1 (by norm_num [abs_of_neg])⟩

/-- C10: the deadzone setters clamp requested values into [0, 1], so a
stored deadzone of exactly 1.0 is accepted; `apply_deadzone` divides by
`1 - deadzone` without a guard, so with `deadzone = 1` every value of
magnitude at least 1 reaches the division and raises `ZeroDivisionError`
(`apply_deadzone_checked _ _ = none`); the error branch is unreachable
exactly under the precondition `deadzone < 1`. -/
theorem C10_deadzone_totality_edge (v dz : ℚ) :
    update_deadzone_store 1 = 1 ∧
    ((1 : ℚ) ≤ |v| → apply_deadzone_checked v 1 = none) ∧
    (dz < 1 → (apply_deadzone_checked v dz).isSome = true) := by
  refine ⟨by norm_num [update_deadzone_store], ?_, ?_⟩
  · intro hv
    have : ¬ |v| < 1 := not_lt.mpr hv
    simp [apply_deadzone_checked, pyabs_eq_abs, this]
  · intro hdz
    have hne : (1 : ℚ) - dz ≠ 0 := by linarith
    by_cases hlt : |v| < dz
    · simp [apply_deadzone_checked, pyabs_eq_abs, hlt]
    · by_cases hge : v ≥ 0 <;>
        simp [apply_deadzone_checked, pyabs_eq_abs, hlt, hne, hge]

/-- C7: pass-through and state protection of the smoother — disabled or
undetected samples are returned unchanged with the internal state
untouched; the first sample after reset/startup is returned unmodified
and becomes the initial previous value (and `reset` indeed clears the
previous value); every later detected sample is combined per channel as
`alpha * current + (1 - alpha) * previous`. -/
theorem C7_smoother_passthrough (st : SmootherState)
    (s p : FaceTrackingData) :
    (st.enabled = false → smooth_data st s = (st, s)) ∧
    (s.face_detected = false → smooth_data st s = (st, s)) ∧
    ((smoother_reset st).prev_data = none) ∧
    (st.enabled = true → s.face_detected = true → st.prev_data = none →
      smooth_data st s = ({ st with prev_data := some s }, s)) ∧
    (st.enabled = true → s.face_detected = true → st.prev_data = some p →
      smooth_data st s =
        ({ st with prev_data := some (emaSample st.alpha p s) },
          emaSample st.alpha p s)) ∧
    ((emaSample st.alpha p s).head_yaw =
      st.alpha * s.head_yaw + (1 - st.alpha) * p.head_yaw) ∧
    ((emaSample st.alpha p s).head_pitch =
      st.alpha * s.head_pitch + (1 - st.alpha) * p.head_pitch) ∧
    ((emaSample st.alpha p s).head_roll =
      st.alpha * s.head_roll + (1 - st.alpha) * p.head_roll) ∧
    ((emaSample st.alpha p s).eye_left =
      st.alpha * s.eye_left + (1 - st.alpha) * p.eye_left) ∧
    ((emaSample st.alpha p s).eye_right =
      st.alpha * s.eye_right + (1 - st.alpha) * p.eye_right) ∧
    ((emaSample st.alpha p s).mouth_open =
      st.alpha * s.mouth_open + (1 - st.alpha) * p.mouth_open) ∧
    ((emaSample st.alpha p s).mouth_wide =
      st.alpha * s.mouth_wide + (1 - st.alpha) * p.mouth_wide) := by
  refine ⟨?_, ?_, rfl, ?_, ?_, rfl, rfl, rfl, rfl, rfl, rfl, rfl⟩
  · intro h; simp [smooth_data, h]
  · intro h; simp [smooth_data, h]
  · intro h1 h2 h3; simp [smooth_data, h1, h2, h3]
  · intro h1 h2 h3; simp [smooth_data, h1, h2, h3]

/-- Witness for C7: a fresh enabled smoother, a detected sample. -/
theorem C7_smoother_passthrough_witness :
    ({ alpha := 2/10, enabled := true, prev_data := none } :
        SmootherState).enabled = true ∧
    ({ head_yaw := 1/2, face_detected := true } :
        FaceTrackingData).face_detected = true ∧
    ({ alpha := 2/10, enabled := true, prev_data := none } :
        SmootherState).prev_data = none ∧
    smooth_data { alpha := 2/10, enabled := true, prev_data := none }
        { head_yaw := 1/2, face_detected := true } =
      ({ alpha := 2/10, enabled := true,
         prev_data := some { head_yaw := 1/2, face_detected := true } },
       { head_yaw := 1/2, face_detected := true }) :=
  ⟨rfl, rfl, rfl,
    (C7_smoother_passthrough
        { alpha := 2/10, enabled := true, prev_data := none }
        { head_yaw := 1/2, face_detected := true } {}).2.2.2.1
      rfl rfl rfl⟩

/-- One EMA step on constant input advances the closed form by one. -/
lemma emaSample_mixSample (alpha : ℚ) (p s : FaceTrackingData) (k : ℕ)
    (hsf : s.face_detected = true) :
    emaSample alpha (mixSample alpha p s k) s = mixSample alpha p s (k + 1) := by
  ext <;> simp [emaSample, ema, mixSample, hsf] <;> ring

/-- Iterating `smooth_data` on a constant detected input from an
initialized state follows the closed form `mixSample`. -/
lemma smooth_constant_iterate (st : SmootherState) (p s : FaceTrackingData)
    (hen : st.enabled = true) (hprev : st.prev_data = some p)
    (hpf : p.face_detected = true) (hsf : s.face_detected = true) :
    ∀ m : ℕ, (fun t => (smooth_data t s).1)^[m] st =
      { st with prev_data := some (mixSample st.alpha p s m) } := by
  intro m
  induction m with
  | zero =>
      have hm : mixSample st.alpha p s 0 = p := by
        ext <;> simp [mixSample, hpf]
      simp only [Function.iterate_zero, id_eq, hm, ← hprev]
  | succ k ih =>
      rw [Function.iterate_succ_apply', ih]
      simp [smooth_data, hen, hsf, emaSample_mixSample st.alpha p s k hsf]

/-- The output of the feed after `n` constant feeds is the closed form at
`n + 1`. -/
lemma smooth_constant_output (st : SmootherState) (p s : FaceTrackingData)
    (hen : st.enabled = true) (hprev : st.prev_data = some p)
    (hpf : p.face_detected = true) (hsf : s.face_detected = true) (n : ℕ) :
    (smooth_data ((fun t => (smooth_data t s).1)^[n] st) s).2 =
      mixSample st.alpha p s (n + 1) := by
  rw [smooth_constant_iterate st p s hen hprev hpf hsf n]
  simp [smooth_data, hen, hsf, emaSample_mixSample st.alpha p s n hsf]

/-- The mean of `n` copies of `x` is `x`. -/
lemma npMean_replicate (n : ℕ) (x : ℚ) (hn : n ≠ 0) :
    npMean (List.replicate n x) = x := by
  simp only [npMean, List.sum_replicate, List.length_replicate, nsmul_eq_mul]
  rw [mul_div_assoc, mul_comm,
    div_mul_cancel₀ x (show ((n : ℚ)) ≠ 0 by exact_mod_cast hn)]

/-- Before the 30th accepted sample, collecting a detected sample `s`
from a freshly started calibrator just accumulates copies of `s`. -/
lemma collect_iter_lt (c0 : FaceCalibrator) (s : FaceTrackingData)
    (hreq : c0.required_samples = 30) (hs : s.face_detected = true) :
    ∀ k, k ≤ 29 →
      (fun c => (collect_sample c s).1)^[k] (start_calibration c0) =
        { calibration_data := c0.calibration_data
          calibration_samples := List.replicate k s
          is_calibrating := true
          required_samples := 30
          current_sample_count := k } := by
  intro k
  induction k with
  | zero => intro _; simp [start_calibration, hreq]
  | succ m ih =>
      intro hm
      rw [Function.iterate_succ_apply', ih (by omega)]
      have hlt : ¬ (m + 1 ≥ 30) := by omega
      simp [collect_sample, hs, hlt, List.replicate_succ' m s]

/-- At the 30th accepted sample the calibrator finishes: the offsets are
the per-channel means (here all equal to the constant sample), the
calibrated flag is set and the buffer is discarded. -/
lemma collect_iter_30 (c0 : FaceCalibrator) (s : FaceTrackingData)
    (hreq : c0.required_samples = 30) (hs : s.face_detected = true) :
    (fun c => (collect_sample c s).1)^[30] (start_calibration c0) =
      { calibration_data :=
          { head_yaw_offset := s.head_yaw
            head_pitch_offset := s.head_pitch
            head_roll_offset := s.head_roll
            eye_left_offset := s.eye_left
            eye_right_offset := s.eye_right
            mouth_open_offset := s.mouth_open
            mouth_wide_offset := s.mouth_wide
            is_calibrated := true }
        calibration_samples := []
        is_calibrating := false
        required_samples := 30
        current_sample_count := 30 } := by
  rw [Function.iterate_succ_apply', collect_iter_lt c0 s hreq hs 29 (by omega)]
  have h30 : List.replicate 29 s ++ [s] = List.replicate 30 s :=
    (List.replicate_succ' 29 s).symm
  have hmean : ∀ f : FaceTrackingData → ℚ,
      npMean (List.map f (List.replicate 30 s)) = f s := by
    intro f
    rw [List.map_replicate, npMean_replicate 30 (f s) (by norm_num)]
  simp only [collect_sample, hs]
  rw [if_neg (by simp)]
  rw [if_pos (by norm_num)]
  rw [h30]
  simp only [finish_calibration]
  rw [if_neg (by simp)]
  simp only [hmean]

/-- A calibrator that is not calibrating ignores collected samples. -/
lemma collect_stable (c : FaceCalibrator) (s : FaceTrackingData)
    (h : c.is_calibrating = false) : (collect_sample c s).1 = c := by
  simp [collect_sample, h]

/-- C5: calibration round-trip.  Starting a calibration (quota 30) and
collecting a fixed detected sample `s` at least 30 times completes the
calibration exactly at the 30th accepted sample (still calibrating before
it, `collect_sample` returns finished on it), stores the per-channel
arithmetic means — here `s` itself — as offsets, sets `is_calibrated`,
discards the buffered samples, and afterwards `apply_calibration s`
yields head channels exactly 0 and all eye/mouth channels within
[0, 1]. -/
theorem C5_calibration_roundtrip (c0 : FaceCalibrator)
    (s : FaceTrackingData) (hreq : c0.required_samples = 30)
    (hs : s.face_detected = true) (n : ℕ) (hn : 30 ≤ n) :
    (∀ k, k ≤ 29 →
      ((fun c => (collect_sample c s).1)^[k]
        (start_calibration c0)).is_calibrating = true) ∧
    (collect_sample ((fun c => (collect_sample c s).1)^[29]
      (start_calibration c0)) s).2 = true ∧
    (((fun c => (collect_sample c s).1)^[n]
        (start_calibration c0)).is_calibrating = false ∧
      ((fun c => (collect_sample c s).1)^[n]
        (start_calibration c0)).calibration_data.is_calibrated = true ∧
      ((fun c => (collect_sample c s).1)^[n]
        (start_calibration c0)).calibration_samples = [] ∧
      ((fun c => (collect_sample c s).1)^[n]
          (start_calibration c0)).calibration_data.head_yaw_offset =
        s.head_yaw ∧
      ((fun c => (collect_sample c s).1)^[n]
          (start_calibration c0)).calibration_data.head_pitch_offset =
        s.head_pitch ∧
      ((fun c => (collect_sample c s).1)^[n]
          (start_calibration c0)).calibration_data.head_roll_offset =
        s.head_roll) ∧
    (apply_calibration ((fun c => (collect_sample c s).1)^[n]
      (start_calibration c0)) s).head_yaw = 0 ∧
    (apply_calibration ((fun c => (collect_sample c s).1)^[n]
      (start_calibration c0)) s).head_pitch = 0 ∧
    (apply_calibration ((fun c => (collect_sample c s).1)^[n]
      (start_calibration c0)) s).head_roll = 0 ∧
    (0 ≤ (apply_calibration ((fun c => (collect_sample c s).1)^[n]
        (start_calibration c0)) s).eye_left ∧
      (apply_calibration ((fun c => (collect_sample c s).1)^[n]
        (start_calibration c0)) s).eye_left ≤ 1) ∧
    (0 ≤ (apply_calibration ((fun c => (collect_sample c s).1)^[n]
        (start_calibration c0)) s).eye_right ∧
      (apply_calibration ((fun c => (collect_sample c s).1)^[n]
        (start_calibration c0)) s).eye_right ≤ 1) ∧
    (0 ≤ (apply_calibration ((fun c => (collect_sample c s).1)^[n]
        (start_calibration c0)) s).mouth_open ∧
      (apply_calibration ((fun c => (collect_sample c s).1)^[n]
        (start_calibration c0)) s).mouth_open ≤ 1) ∧
    (0 ≤ (apply_calibration ((fun c => (collect_sample c s).1)^[n]
        (start_calibration c0)) s).mouth_wide ∧
      (apply_calibration ((fun c => (collect_sample c s).1)^[n]
        (start_calibration c0)) s).mouth_wide ≤ 1) := by
  have hfin : ∀ m : ℕ, (fun c => (collect_sample c s).1)^[30 + m]
      (start_calibration c0) =
        (fun c => (collect_sample c s).1)^[30] (start_calibration c0) := by
    intro m
    rw [add_comm, Function.iterate_add_apply]
    exact Function.iterate_fixed
      (collect_stable _ s (by rw [collect_iter_30 c0 s hreq hs])) m
  have hn30 : (fun c => (collect_sample c s).1)^[n]
      (start_calibration c0) =
        (fun c => (collect_sample c s).1)^[30] (start_calibration c0) := by
    obtain ⟨m, rfl⟩ : ∃ m, n = 30 + m := ⟨n - 30, by omega⟩
    exact hfin m
  refine ⟨?_, ?_, ?_, ?_, ?_, ?_, ?_, ?_, ?_, ?_⟩
  · intro k hk
    rw [collect_iter_lt c0 s hreq hs k hk]
  · rw [collect_iter_lt c0 s hreq hs 29 (by omega)]
    simp [collect_sample, hs]
  · rw [hn30, collect_iter_30 c0 s hreq hs]
    exact ⟨rfl, rfl, rfl, rfl, rfl, rfl⟩
  all_goals
    rw [hn30, collect_iter_30 c0 s hreq hs]
    simp [apply_calibration, sub_self, clamp01_eq_self (le_refl (0 : ℚ))
      (by norm_num : (0 : ℚ) ≤ 1),
      clampPM1_eq_self (by norm_num : (-1 : ℚ) ≤ 0)
      (by norm_num : (0 : ℚ) ≤ 1)]

/-- Witness for C5: the default calibrator, a fixed detected sample,
31 collection calls. -/
theorem C5_calibration_roundtrip_witness :
    ({} : FaceCalibrator).required_samples = 30 ∧
    ({ head_yaw := 1/10, eye_left := 9/10, face_detected := true } :
      FaceTrackingData).face_detected = true ∧
    (30 : ℕ) ≤ 31 ∧
    (apply_calibration
      ((fun c => (collect_sample c
          ({ head_yaw := 1/10, eye_left := 9/10, face_detected := true } :
            FaceTrackingData)).1)^[31]
        (start_calibration {}))
      { head_yaw := 1/10, eye_left := 9/10,
        face_detected := true }).head_yaw = 0 :=
  ⟨rfl, rfl, by norm_num,
    (C5_calibration_roundtrip {} _ rfl rfl 31 (by norm_num)).2.2.2.1⟩

/-- C6 counterexample: the claim fails as stated.  With `alpha = 1/10`,
a smoother initialized on an all-zero detected sample, and the constant
detected input `head_yaw = 1`, the sixth consecutive output (more than 5
feeds) still differs from the raw value by `(9/10)^6 ≈ 0.53 > 1e-3`. -/
theorem C6_counterexample :
    let sA : FaceTrackingData := { face_detected := true }
    let s1 : FaceTrackingData := { head_yaw := 1, face_detected := true }
    let st0 : SmootherState :=
      { alpha := 1/10, enabled := true, prev_data := none }
    let st1 := (smooth_data st0 sA).1
    let out6 := (smooth_data ((fun t => (smooth_data t s1).1)^[5] st1) s1).2
    ¬ |out6.head_yaw - s1.head_yaw| ≤ 1/1000 := by
  intro sA s1 st0 st1 out6
  have hst1 : st1 = { alpha := 1/10, enabled := true, prev_data := some sA } := rfl
  have h1 : out6 = mixSample (1/10) sA s1 6 := by
    show (smooth_data ((fun t => (smooth_data t s1).1)^[5] st1) s1).2 = _
    rw [hst1]
    exact smooth_constant_output _ sA s1 rfl rfl rfl rfl 5
  rw [h1]
  norm_num [mixSample, abs_of_neg]

/-- C6 amended: on constant detected input the smoother converges
geometrically with ratio `1 - alpha` — after `n` further feeds from an
initialized state with previous value `p`, the state's previous value is
exactly `mixSample` (error `(1-alpha)^n` times the initial gap per
channel), the `n+1`-st output is `mixSample` at `n+1`, and for
`alpha ≤ 1` the absolute output error on a channel equals
`(1-alpha)^(n+1)` times the initial gap — within `1e-3` only once `n` is
large enough for the given `alpha` and gap, not after any fixed count. -/
theorem C6_amended_geometric (st : SmootherState) (p s : FaceTrackingData)
    (n : ℕ) (hen : st.enabled = true) (hprev : st.prev_data = some p)
    (hpf : p.face_detected = true) (hsf : s.face_detected = true) :
    ((fun t => (smooth_data t s).1)^[n] st =
      { st with prev_data := some (mixSample st.alpha p s n) }) ∧
    ((smooth_data ((fun t => (smooth_data t s).1)^[n] st) s).2 =
      mixSample st.alpha p s (n + 1)) ∧
    (st.alpha ≤ 1 →
      |(mixSample st.alpha p s (n + 1)).head_yaw - s.head_yaw| =
        (1 - st.alpha) ^ (n + 1) * |p.head_yaw - s.head_yaw|) := by
  refine ⟨smooth_constant_iterate st p s hen hprev hpf hsf n,
    smooth_constant_output st p s hen hprev hpf hsf n, ?_⟩
  intro hle
  have h0 : (0 : ℚ) ≤ (1 - st.alpha) ^ (n + 1) :=
    pow_nonneg (by linarith) _
  have hdiff : (mixSample st.alpha p s (n + 1)).head_yaw - s.head_yaw =
      (1 - st.alpha) ^ (n + 1) * (p.head_yaw - s.head_yaw) := by
    simp [mixSample]
  rw [hdiff, abs_mul, abs_of_nonneg h0]

/-- Witness for C6 amended: `alpha = 1/10`, previous value all zeros,
constant input `head_yaw = 1`, two further feeds. -/
theorem C6_amended_geometric_witness :
    ({ alpha := 1/10, enabled := true,
       prev_data := some { face_detected := true } } :
        SmootherState).enabled = true ∧
    ({ alpha := 1/10, enabled := true,
       prev_data := some { face_detected := true } } :
        SmootherState).prev_data = some { face_detected := true } ∧
    ({ face_detected := true } : FaceTrackingData).face_detected = true ∧
    ({ head_yaw := 1, face_detected := true } :
        FaceTrackingData).face_detected = true ∧
    (fun t => (smooth_data t
        ({ head_yaw := 1, face_detected := true } : FaceTrackingData)).1)^[2]
        { alpha := 1/10, enabled := true,
          prev_data := some { face_detected := true } } =
      { alpha := 1/10, enabled := true,
        prev_data := some (mixSample (1/10) { face_detected := true }
          { head_yaw := 1, face_detected := true } 2) } :=
  ⟨rfl, rfl, rfl, rfl,
    (C6_amended_geometric
        { alpha := 1/10, enabled := true,
          prev_data := some { face_detected := true } }
        { face_detected := true }
        { head_yaw := 1, face_detected := true } 2
        rfl rfl rfl rfl).1⟩

/-- C8: with precision mode and noise reduction enabled and a previous
enhanced sample `p` present, a channel whose enhanced (multiplied) value
differs from the previous output by less than `noise_threshold` is frozen
at the previous output — identical output, since the stored previous
output is already clamped into range — while a difference of
`noise_threshold` or more passes the current enhanced value through
unfrozen (then range-clamped); the very first enhanced sample, having no
previous value, is processed without noise reduction.  The per-channel
difference is the one the source computes: current enhanced value against
the previously returned enhanced sample (`reduce_noise(enhanced_data,
self.prev_data)`). -/
theorem C8_precision_noise_reduction (pm : PrecisionMode)
    (s p : FaceTrackingData) (hen : pm.enabled = true)
    (hnr : pm.noise_reduction_enabled = true) :
    (pm.prev_data = none →
      enhance_tracking_data pm s =
        ({ pm with prev_data := some (clampSample (multSample pm s)) },
         clampSample (multSample pm s))) ∧
    (pm.prev_data = some p →
      ((|(multSample pm s).head_yaw - p.head_yaw| < pm.noise_threshold →
          -1 ≤ p.head_yaw → p.head_yaw ≤ 1 →
          (enhance_tracking_data pm s).2.head_yaw = p.head_yaw) ∧
       (pm.noise_threshold ≤ |(multSample pm s).head_yaw - p.head_yaw| →
          (enhance_tracking_data pm s).2.head_yaw =
            clampPM1 (multSample pm s).head_yaw) ∧
       (|(multSample pm s).head_pitch - p.head_pitch| < pm.noise_threshold →
          -1 ≤ p.head_pitch → p.head_pitch ≤ 1 →
          (enhance_tracking_data pm s).2.head_pitch = p.head_pitch) ∧
       (pm.noise_threshold ≤ |(multSample pm s).head_pitch - p.head_pitch| →
          (enhance_tracking_data pm s).2.head_pitch =
            clampPM1 (multSample pm s).head_pitch) ∧
       (|(multSample pm s).head_roll - p.head_roll| < pm.noise_threshold →
          -1 ≤ p.head_roll → p.head_roll ≤ 1 →
          (enhance_tracking_data pm s).2.head_roll = p.head_roll) ∧
       (pm.noise_threshold ≤ |(multSample pm s).head_roll - p.head_roll| →
          (enhance_tracking_data pm s).2.head_roll =
            clampPM1 (multSample pm s).head_roll) ∧
       (|(multSample pm s).eye_left - p.eye_left| < pm.noise_threshold →
          0 ≤ p.eye_left → p.eye_left ≤ 1 →
          (enhance_tracking_data pm s).2.eye_left = p.eye_left) ∧
       (pm.noise_threshold ≤ |(multSample pm s).eye_left - p.eye_left| →
          (enhance_tracking_data pm s).2.eye_left =
            clamp01 (multSample pm s).eye_left) ∧
       (|(multSample pm s).eye_right - p.eye_right| < pm.noise_threshold →
          0 ≤ p.eye_right → p.eye_right ≤ 1 →
          (enhance_tracking_data pm s).2.eye_right = p.eye_right) ∧
       (pm.noise_threshold ≤ |(multSample pm s).eye_right - p.eye_right| →
          (enhance_tracking_data pm s).2.eye_right =
            clamp01 (multSample pm s).eye_right) ∧
       (|(multSample pm s).mouth_open - p.mouth_open| < pm.noise_threshold →
          0 ≤ p.mouth_open → p.mouth_open ≤ 1 →
          (enhance_tracking_data pm s).2.mouth_open = p.mouth_open) ∧
       (pm.noise_threshold ≤ |(multSample pm s).mouth_open - p.mouth_open| →
          (enhance_tracking_data pm s).2.mouth_open =
            clamp01 (multSample pm s).mouth_open) ∧
       (|(multSample pm s).mouth_wide - p.mouth_wide| < pm.noise_threshold →
          0 ≤ p.mouth_wide → p.mouth_wide ≤ 1 →
          (enhance_tracking_data pm s).2.mouth_wide = p.mouth_wide) ∧
       (pm.noise_threshold ≤ |(multSample pm s).mouth_wide - p.mouth_wide| →
          (enhance_tracking_data pm s).2.mouth_wide =
            clamp01 (multSample pm s).mouth_wide))) := by
  constructor
  · intro hprev
    simp [enhance_tracking_data, hen, hprev]
  · intro hprev
    have hmain : (enhance_tracking_data pm s).2 =
        clampSample (reduce_noise pm (multSample pm s) p) := by
      simp [enhance_tracking_data, hen, hprev, hnr]
    rw [hmain]
    refine ⟨?_, ?_, ?_, ?_, ?_, ?_, ?_, ?_, ?_, ?_, ?_, ?_, ?_, ?_⟩ <;>
      intro hd
    case _ =>
      intro hl hr
      simp [clampSample, reduce_noise, pyabs_eq_abs, hnr, hd.not_le, clampPM1_eq_self hl hr]
    case _ => simp [clampSample, reduce_noise, pyabs_eq_abs, hnr, hd]
    case _ =>
      intro hl hr
      simp [clampSample, reduce_noise, pyabs_eq_abs, hnr, hd.not_le, clampPM1_eq_self hl hr]
    case _ => simp [clampSample, reduce_noise, pyabs_eq_abs, hnr, hd]
    case _ =>
      intro hl hr
      simp [clampSample, reduce_noise, pyabs_eq_abs, hnr, hd.not_le, clampPM1_eq_self hl hr]
    case _ => simp [clampSample, reduce_noise, pyabs_eq_abs, hnr, hd]
    case _ =>
      intro hl hr
      simp [clampSample, reduce_noise, pyabs_eq_abs, hnr, hd.not_le, clamp01_eq_self hl hr]
    case _ => simp [clampSample, reduce_noise, pyabs_eq_abs, hnr, hd]
    case _ =>
      intro hl hr
      simp [clampSample, reduce_noise, pyabs_eq_abs, hnr, hd.not_le, clamp01_eq_self hl hr]
    case _ => simp [clampSample, reduce_noise, pyabs_eq_abs, hnr, hd]
    case _ =>
      intro hl hr
      simp [clampSample, reduce_noise, pyabs_eq_abs, hnr, hd.not_le, clamp01_eq_self hl hr]
    case _ => simp [clampSample, reduce_noise, pyabs_eq_abs, hnr, hd]
    case _ =>
      intro hl hr
      simp [clampSample, reduce_noise, pyabs_eq_abs, hnr, hd.not_le, clamp01_eq_self hl hr]
    case _ => simp [clampSample, reduce_noise, pyabs_eq_abs, hnr, hd]

/-- Witness for C8: default-threshold precision mode with previous output
all `3/10`, current raw `head_yaw = 1/5` (enhanced `3/10`, sub-threshold,
frozen). -/
theorem C8_precision_noise_reduction_witness :
    let pW : FaceTrackingData :=
      { head_yaw := 3/10, head_pitch := 3/10, head_roll := 3/10,
        eye_left := 3/10, eye_right := 3/10, mouth_open := 3/10,
        mouth_wide := 3/10, face_detected := true }
    let pmW : PrecisionMode :=
      { enabled := true, sensitivity_multiplier := 3/2,
        prev_data := some pW,
        noise_reduction_enabled := true, noise_threshold := 1/100 }
    let sW : FaceTrackingData := { head_yaw := 1/5, face_detected := true }
    pmW.enabled = true ∧ pmW.noise_reduction_enabled = true ∧
    pmW.prev_data = some pW ∧
    |(multSample pmW sW).head_yaw - pW.head_yaw| < pmW.noise_threshold ∧
    (-1 : ℚ) ≤ pW.head_yaw ∧ pW.head_yaw ≤ 1 ∧
    (enhance_tracking_data pmW sW).2.head_yaw = pW.head_yaw := by
  intro pW pmW sW
  refine ⟨rfl, rfl, rfl, by norm_num [multSample], by norm_num, by norm_num, ?_⟩
  exact ((C8_precision_noise_reduction pmW sW pW rfl rfl).2 rfl).1
    (by norm_num [multSample]) (by norm_num) (by norm_num)

/-- Witness for C10 at `v = -3/2`, `dz = 99/100`. -/
theorem C10_deadzone_totality_edge_witness :
    (1 : ℚ) ≤ |(-3/2 : ℚ)| ∧ (99/100 : ℚ) < 1 ∧
    apply_deadzone_checked (-3/2) 1 = none ∧
    (apply_deadzone_checked (-3/2) (99/100)).isSome = true :=
  ⟨by norm_num [abs_of_neg], by norm_num,
    (C10_deadzone_totality_edge (-3/2) (99/100)).2.1 (by norm_num [abs_of_neg]),
    (C10_deadzone_totality_edge (-3/2) (99/100)).2.2 (by norm_num)⟩

end VTracker

namespace VTracker

/-- With no socket faults, every planned message of the frame is
delivered and no error is logged. -/
lemma send_until_error_no_fail (msgs : List OscMsg) :
    ∀ k, send_until_error (fun _ => false) k msgs = (msgs, false) := by
  induction msgs with
  | nil => intro k; rfl
  | cons m rest ih =>
      intro k
      simp [send_until_error, ih (k + 1)]

/-- With a single faulting `send_message` call at absolute index `N`,
delivery stops at `N`: exactly the messages before it are sent and the
error is caught. -/
lemma send_until_error_single_fail (msgs : List OscMsg) :
    ∀ (k N : ℕ), k ≤ N → N - k < msgs.length →
      send_until_error (fun j => j == N) k msgs = (msgs.take (N - k), true) := by
  induction msgs with
  | nil => intro k N _ h; simp at h
  | cons m rest ih =>
      intro k N hk h
      by_cases hkN : k = N
      · subst hkN
        simp [send_until_error]
      · have hlt : k < N := lt_of_le_of_ne hk hkN
        have hne : (k == N) = false := by simp [Nat.ne_of_lt hlt]
        have hrec := ih (k + 1) N (by omega) (by simp at h ⊢; omega)
        have hNk : N - k = (N - (k + 1)) + 1 := by omega
        simp only [send_until_error, hne, Bool.false_eq_true, if_false, hrec,
          hNk, List.take_succ_cons]

/-- C2 counterexample: the claim fails as stated.  A frame whose head
keys are present plans 9 messages; if the very first `send_message`
(the rotation message) raises, none of the remaining 8 blend-shape
messages of that frame is attempted — e.g. the `Blink_L` message is
planned but never delivered. -/
theorem C2_counterexample :
    let quatFn0 : ℚ → ℚ → ℚ → Quat := fun _ _ _ => ⟨1, 0, 0, 0⟩
    let params : List (String × ℚ) :=
      [("head_yaw", 1/2), ("head_pitch", 0), ("head_roll", 0)]
    (vmc_planned_messages quatFn0 params).length = 9 ∧
    OscMsg.blendVal "Blink_L" 0 1 ∈ vmc_planned_messages quatFn0 params ∧
    vmc_send_tracking_data quatFn0 true true true (fun j => j == 0) params =
      ([], true) := by
  refine ⟨rfl, by decide, ?_⟩
  show send_until_error (fun j => j == 0) 0 (vmc_planned_messages _ _) = _
  rw [send_until_error_single_fail _ 0 0 (le_refl 0) (by decide)]
  rfl

/-- C2 amended: the whole frame body of `VMCSender.send_tracking_data`
sits in one `try`/`except`, so a send error on any individual message is
caught and logged at frame level (the call returns normally) but aborts
the remaining messages of that frame: exactly the messages strictly
before the failing one are delivered; with no failure the whole planned
frame is delivered; later frames are unaffected since no state
changes. -/
theorem C2_amended_frame_abort (quatFn : ℚ → ℚ → ℚ → Quat)
    (params : List (String × ℚ)) (i : ℕ)
    (hi : i < (vmc_planned_messages quatFn params).length) :
    vmc_send_tracking_data quatFn true true true (fun j => j == i) params =
      ((vmc_planned_messages quatFn params).take i, true) ∧
    vmc_send_tracking_data quatFn true true true (fun _ => false) params =
      (vmc_planned_messages quatFn params, false) := by
  constructor
  · show send_until_error _ 0 _ = _
    have := send_until_error_single_fail (vmc_planned_messages quatFn params)
      0 i (Nat.zero_le i) (by simpa using hi)
    simpa using this
  · exact send_until_error_no_fail (vmc_planned_messages quatFn params) 0

/-- Witness for C2 amended: failing index 1 in a 9-message frame. -/
theorem C2_amended_frame_abort_witness :
    (1 < (vmc_planned_messages (fun _ _ _ => ⟨1, 0, 0, 0⟩)
      [("head_yaw", 1/2), ("head_pitch", 0), ("head_roll", 0)]).length) ∧
    vmc_send_tracking_data (fun _ _ _ => ⟨1, 0, 0, 0⟩) true true true
        (fun j => j == 1)
        [("head_yaw", 1/2), ("head_pitch", 0), ("head_roll", 0)] =
      ((vmc_planned_messages (fun _ _ _ => ⟨1, 0, 0, 0⟩)
        [("head_yaw", 1/2), ("head_pitch", 0), ("head_roll", 0)]).take 1,
       true) :=
  ⟨by decide,
    (C2_amended_frame_abort (fun _ _ _ => ⟨1, 0, 0, 0⟩)
      [("head_yaw", 1/2), ("head_pitch", 0), ("head_roll", 0)] 1
      (by decide)).1⟩

end VTracker

namespace VTracker

/-- C3 counterexample: the claim fails as stated.  `disconnect` leaves
the per-parameter last-sent-value cache intact: from a connected,
authenticated state with a cached parameter, the cache still holds that
entry afterwards (and likewise after a transport error or close). -/
theorem C3_counterexample :
    let st : VTSState :=
      { enabled := true, ws_some := true, is_connected := true,
        auth_token := some "tok", session_id := some "sess",
        param_cache := [("ParamAngleX", 5)] }
    (vts_disconnect st).param_cache = [("ParamAngleX", 5)] ∧
    ¬ (vts_disconnect st).param_cache = [] ∧
    ¬ ((vts_step st VTSEvent.onError).1.param_cache = []) ∧
    ¬ ((vts_step st VTSEvent.onClose).1.param_cache = []) := by
  refine ⟨rfl, by decide, by decide, by decide⟩

/-- C3 amended: any transport error (`on_error`, `on_close`) and any
explicit `disconnect()` drop the connection flag and clear the cached
auth token, but the per-parameter last-sent-value cache is preserved,
not cleared; `disconnect` is total (safe from every state) and
idempotent. -/
theorem C3_amended_disconnect (st : VTSState) :
    ((vts_disconnect st).is_connected = false ∧
      (vts_disconnect st).auth_token = none ∧
      (vts_disconnect st).param_cache = st.param_cache) ∧
    ((vts_step st VTSEvent.onError).1.is_connected = false ∧
      (vts_step st VTSEvent.onError).1.auth_token = none ∧
      (vts_step st VTSEvent.onError).1.param_cache = st.param_cache) ∧
    ((vts_step st VTSEvent.onClose).1.is_connected = false ∧
      (vts_step st VTSEvent.onClose).1.auth_token = none ∧
      (vts_step st VTSEvent.onClose).1.param_cache = st.param_cache) ∧
    vts_disconnect (vts_disconnect st) = vts_disconnect st :=
  ⟨⟨rfl, rfl, rfl⟩, ⟨rfl, rfl, rfl⟩, ⟨rfl, rfl, rfl⟩, rfl⟩

end VTracker

namespace VTracker

/-- Appending a fresh key at the end does not change other lookups. -/
lemma dict_get_append_single (c : List (String × ℚ)) (k k' : String)
    (v : ℚ) (h : k' ≠ k) : dict_get (c ++ [(k, v)]) k' = dict_get c k' := by
  induction c with
  | nil => simp [dict_get, h]
  | cons a t ih =>
      obtain ⟨a1, a2⟩ := a
      by_cases h' : k' = a1 <;> simp [dict_get, h', ih]

/-- Replacing the value stored under `k` does not change other lookups. -/
lemma dict_get_map_replace (c : List (String × ℚ)) (k k' : String) (v : ℚ)
    (h : k' ≠ k) :
    dict_get (c.map (fun p => if p.1 = k then (k, v) else p)) k' =
      dict_get c k' := by
  induction c with
  | nil => rfl
  | cons a t ih =>
      obtain ⟨a1, a2⟩ := a
      by_cases hk : a1 = k
      · subst hk
        simp only [List.map_cons, if_pos rfl]
        by_cases h' : k' = a1
        · exact absurd h' h
        · simp [dict_get, h', ih]
      · simp only [List.map_cons, if_neg hk]
        by_cases h' : k' = a1 <;> simp [dict_get, h', ih]

/-- `dict_set` never changes the lookup of a different key. -/
lemma dict_set_lookup_ne (c : List (String × ℚ)) (k k' : String) (v : ℚ)
    (h : k' ≠ k) : dict_get (dict_set c k v) k' = dict_get c k' := by
  unfold dict_set
  by_cases hc : (dict_get c k).isSome <;>
    simp [hc, dict_get_append_single c k k' v h, dict_get_map_replace c k k' v h]

/-- The change-detection test for a name is unaffected by a cache write
under a different name. -/
lemma vts_passes_dict_set (c : List (String × ℚ)) (k k' : String)
    (v w : ℚ) (h : k' ≠ k) :
    vts_passes (dict_set c k v) k' w = vts_passes c k' w := by
  simp [vts_passes, dict_set_lookup_ne c k k' v h]

/-- Closed form of the `send_tracking_data` parameter loop: with
duplicate-free parameter names (a Python dict), the batch is the filter
of the parameters passing the change-detection test against the incoming
cache, and the cache is rewritten exactly on the batched names. -/
lemma vts_param_loop_spec (params : List (String × ℚ)) :
    ∀ (cache acc : List (String × ℚ)),
      (params.map Prod.fst).Nodup →
      vts_param_loop params cache acc =
        (acc ++ params.filter (fun p => vts_passes cache p.1 p.2),
         (params.filter (fun p => vts_passes cache p.1 p.2)).foldl
           (fun c p => dict_set c p.1 p.2) cache) := by
  induction params with
  | nil => intro cache acc _; simp [vts_param_loop]
  | cons hd rest ih =>
      intro cache acc hnd
      obtain ⟨name, v⟩ := hd
      have hcons := List.nodup_cons.mp (by simpa using hnd :
        (name :: rest.map Prod.fst).Nodup)
      have hnotin : name ∉ rest.map Prod.fst := hcons.1
      have hrest : (rest.map Prod.fst).Nodup := hcons.2
      have hfilter :
          rest.filter (fun p => vts_passes (dict_set cache name v) p.1 p.2) =
            rest.filter (fun p => vts_passes cache p.1 p.2) := by
        apply List.filter_congr
        intro p hp
        have hne : p.1 ≠ name := by
          intro he
          exact hnotin (he ▸ List.mem_map_of_mem Prod.fst hp)
        rw [vts_passes_dict_set cache name p.1 v p.2 hne]
      by_cases hpass : vts_passes cache name v = true
      · simp only [vts_param_loop, hpass, if_true]
        rw [ih (dict_set cache name v) (acc ++ [(name, v)]) hrest, hfilter]
        simp [List.filter_cons, hpass]
      · simp only [vts_param_loop, hpass, if_false]
        rw [ih cache acc hrest]
        simp [List.filter_cons, hpass]

end VTracker

namespace VTracker

/-- C9: change-detection of the Session adapter.  In the
enabled/connected state with a live socket, a call batches exactly the
parameters passing the 0.01-delta test against the incoming cache (a
first-seen name always passes) into at most one
`ParameterUpdateRequest`; the cache is rewritten only on the batched
names; a cached parameter whose delta is below 0.01 is excluded; and if
nothing passes, zero outbound messages are sent. -/
theorem C9_change_detection (st : VTSState) (params : List (String × ℚ))
    (hen : st.enabled = true) (hc : st.is_connected = true)
    (hws : st.ws_some = true) (hnd : (params.map Prod.fst).Nodup) :
    ((vts_send_tracking_data st params).2 =
      if params.filter (fun p => vts_passes st.param_cache p.1 p.2) = []
      then []
      else [VTSOutMsg.parameterUpdateRequest
        (params.filter (fun p => vts_passes st.param_cache p.1 p.2))]) ∧
    ((vts_send_tracking_data st params).1.param_cache =
      (params.filter (fun p => vts_passes st.param_cache p.1 p.2)).foldl
        (fun c p => dict_set c p.1 p.2) st.param_cache) ∧
    (∀ name w, (name, w) ∈ params →
      ((name, w) ∈ params.filter
          (fun p => vts_passes st.param_cache p.1 p.2) ↔
        (dict_get st.param_cache name = none ∨
          ∃ v, dict_get st.param_cache name = some v ∧
            1/100 ≤ pyabs (v - w)))) := by
  have hloop := vts_param_loop_spec params st.param_cache [] hnd
  have h1 : (vts_send_tracking_data st params).2 =
      if params.filter (fun p => vts_passes st.param_cache p.1 p.2) = []
      then []
      else [VTSOutMsg.parameterUpdateRequest
        (params.filter (fun p => vts_passes st.param_cache p.1 p.2))] := by
    unfold vts_send_tracking_data
    rw [hloop]
    simp [hen, hc, hws]
  have h2 : (vts_send_tracking_data st params).1.param_cache =
      (params.filter (fun p => vts_passes st.param_cache p.1 p.2)).foldl
        (fun c p => dict_set c p.1 p.2) st.param_cache := by
    unfold vts_send_tracking_data
    rw [hloop]
    simp [hen, hc, hws]
  refine ⟨h1, h2, ?_⟩
  intro name w hmem
  rw [List.mem_filter]
  constructor
  · rintro ⟨-, hpass⟩
    revert hpass
    simp only [vts_passes]
    cases hget : dict_get st.param_cache name with
    | none => intro _; exact Or.inl rfl
    | some v =>
        intro hpass
        refine Or.inr ⟨v, rfl, ?_⟩
        by_contra hlt
        simp only [not_le] at hlt
        simp at hpass
        linarith
  · intro hcase
    refine ⟨hmem, ?_⟩
    simp only [vts_passes]
    rcases hcase with hnone | ⟨v, hv, hge⟩
    · rw [hnone]
    · rw [hv]
      simp only [not_lt.mpr hge, if_false]

/-- Witness for C9: cached `ParamAngleX = 5`; an update of `5.005`
(delta below 0.01) is excluded while the fresh `ParamAngleY` is batched
alone. -/
theorem C9_change_detection_witness :
    let stW : VTSState :=
      { enabled := true, ws_some := true, is_connected := true,
        auth_token := some "tok", session_id := some "sess",
        param_cache := [("ParamAngleX", 5)] }
    let paramsW : List (String × ℚ) :=
      [("ParamAngleX", 5005/1000), ("ParamAngleY", 1)]
    stW.enabled = true ∧ stW.is_connected = true ∧ stW.ws_some = true ∧
    (paramsW.map Prod.fst).Nodup ∧
    ((vts_send_tracking_data stW paramsW).2 =
      if paramsW.filter (fun p => vts_passes stW.param_cache p.1 p.2) = []
      then []
      else [VTSOutMsg.parameterUpdateRequest
        (paramsW.filter (fun p => vts_passes stW.param_cache p.1 p.2))]) ∧
    paramsW.filter (fun p => vts_passes stW.param_cache p.1 p.2) =
      [("ParamAngleY", 1)] := by
  refine ⟨rfl, rfl, rfl, by decide, ?_, ?_⟩
  · exact (C9_change_detection _ _ rfl rfl rfl (by decide)).1
  · norm_num +decide [List.filter, vts_passes, dict_get, pyabs]

end VTracker

namespace VTracker

/-- While the adapter is not connected, no event emits a
`ParameterUpdateRequest`. -/
lemma vts_step_no_param_when_disconnected (st : VTSState) (e : VTSEvent)
    (h : st.is_connected = false) :
    ∀ m ∈ (vts_step st e).2, isParamUpdate m = false := by
  cases e with
  | wsCreated => simp [vts_step]
  | onOpen => simp [vts_step]
  | onMessage msg =>
      cases msg with
      | apiError s => simp [vts_step]
      | authenticationToken tok =>
          cases tok with
          | none => simp [vts_step]
          | some t => simp [vts_step, isParamUpdate]
      | authenticationResponse ok sid => simp [vts_step]
      | currentModelParameters => simp [vts_step]
      | malformed s => simp [vts_step]
  | onError => simp [vts_step]
  | onClose => simp [vts_step]
  | authenticate => simp [vts_step, h]
  | disconnectCall => simp [vts_step]
  | sendTrackingData params => simp [vts_step, vts_send_tracking_data, h]

/-- Every event other than `on_open` keeps a disconnected adapter
disconnected. -/
lemma vts_step_preserves_disconnected (st : VTSState) (e : VTSEvent)
    (h : st.is_connected = false) (hne : e ≠ VTSEvent.onOpen) :
    (vts_step st e).1.is_connected = false := by
  cases e with
  | wsCreated => simpa [vts_step] using h
  | onOpen => exact absurd rfl hne
  | onMessage msg =>
      cases msg with
      | apiError s => simpa [vts_step] using h
      | authenticationToken tok =>
          cases tok with
          | none => simpa [vts_step] using h
          | some t => simpa [vts_step] using h
      | authenticationResponse ok sid =>
          cases ok <;> simpa [vts_step] using h
      | currentModelParameters => simpa [vts_step] using h
      | malformed s => simpa [vts_step] using h
  | onError => simp [vts_step]
  | onClose => simp [vts_step]
  | authenticate => simp [vts_step, h]
  | disconnectCall => simp [vts_step, vts_disconnect]
  | sendTrackingData params => simp [vts_step, vts_send_tracking_data, h]

/-- A trace without `on_open` from a disconnected state emits no
`ParameterUpdateRequest`. -/
lemma vts_run_no_param_without_open :
    ∀ (tr : List VTSEvent) (st : VTSState), st.is_connected = false →
      (∀ e ∈ tr, e ≠ VTSEvent.onOpen) →
      ∀ m ∈ (vts_run st tr).2, isParamUpdate m = false := by
  intro tr
  induction tr with
  | nil => intro st _ _ m hm; simp [vts_run] at hm
  | cons e rest ih =>
      intro st h hop m hm
      simp only [vts_run] at hm
      rw [List.mem_append] at hm
      rcases hm with hm | hm
      · exact vts_step_no_param_when_disconnected st e h m hm
      · exact ih (vts_step st e).1
          (vts_step_preserves_disconnected st e h
            (hop e (List.mem_cons_self e rest)))
          (fun e' he' => hop e' (List.mem_cons_of_mem e he')) m hm

/-- C1 counterexample: the claim fails as stated.  From the initial
state, the trace socket-created → `on_open` → `send_tracking_data`
contains no `AuthenticationResponse` acknowledgment at all, yet a
`ParameterUpdateRequest` is emitted: `send_tracking_data` gates only on
`is_connected`, which `on_open` sets before any authentication. -/
theorem C1_counterexample :
    let tr : List VTSEvent :=
      [VTSEvent.wsCreated, VTSEvent.onOpen,
       VTSEvent.sendTrackingData [("ParamAngleX", 15)]]
    (∀ e ∈ tr, isAuthAck e = false) ∧
    (vts_run {} tr).2 =
      [VTSOutMsg.parameterUpdateRequest [("ParamAngleX", 15)]] := by
  exact ⟨by decide, by decide⟩

/-- C1 amended: parameter updates are never sent while `is_connected`
is false — any call of `send_tracking_data` in a disconnected state
emits nothing, and a trace from the initial state containing no
`on_open` event emits no `ParameterUpdateRequest` — but connectivity,
not authentication, is the gate: `on_open` alone suffices (see the
counterexample). -/
theorem C1_amended_connectivity_gate (tr : List VTSEvent) (st : VTSState)
    (params : List (String × ℚ))
    (hop : ∀ e ∈ tr, e ≠ VTSEvent.onOpen) :
    (st.is_connected = false →
      (vts_send_tracking_data st params).2 = []) ∧
    (∀ m ∈ (vts_run {} tr).2, isParamUpdate m = false) := by
  constructor
  · intro h
    simp [vts_send_tracking_data, h]
  · exact vts_run_no_param_without_open tr {} rfl hop

/-- Witness for C1 amended: a connect-then-send trace with no open
callback, and a send on a disconnected state. -/
theorem C1_amended_connectivity_gate_witness :
    let trW : List VTSEvent :=
      [VTSEvent.wsCreated, VTSEvent.sendTrackingData [("ParamAngleX", 15)]]
    let stW : VTSState :=
      { enabled := true, ws_some := true, is_connected := false,
        auth_token := none, session_id := none, param_cache := [] }
    (∀ e ∈ trW, e ≠ VTSEvent.onOpen) ∧ stW.is_connected = false ∧
    (vts_send_tracking_data stW [("ParamAngleX", 15)]).2 = [] ∧
    (∀ m ∈ (vts_run {} trW).2, isParamUpdate m = false) := by
  refine ⟨by decide, rfl, ?_, ?_⟩
  · exact (C1_amended_connectivity_gate
      [VTSEvent.wsCreated, VTSEvent.sendTrackingData [("ParamAngleX", 15)]]
      { enabled := true, ws_some := true, is_connected := false,
        auth_token := none, session_id := none, param_cache := [] }
      [("ParamAngleX", 15)] (by decide)).1 rfl
  · exact (C1_amended_connectivity_gate
      [VTSEvent.wsCreated, VTSEvent.sendTrackingData [("ParamAngleX", 15)]]
      { enabled := true, ws_some := true, is_connected := false,
        auth_token := none, session_id := none, param_cache := [] }
      [("ParamAngleX", 15)] (by decide)).2

end VTracker
